import Mathlib

/-!
# Verification of the TEMPer2 USB protocol layer (comm.c)

Shallow embedding of the device protocol layer of the TEMPer2-getdegs
repository.  The USB transport library (libusb 0.1) is modelled as an
oracle: a record of functions giving the return values of each USB call,
plus, for reads, the bytes the device delivers.  Machine integers are
modelled as Nat/Int with explicit reductions mod 2^8 where the C code
truncates to unsigned char; the float temperature scale 125.0/32000.0
equals 2^-8 exactly and the 16-bit word is exactly representable in IEEE
single precision, so the float arithmetic of the decoder is exact and is
modelled in the rationals.
-/

namespace TemperComm

/-- A USB device as seen during enumeration: the descriptor fields the
matcher reads (idVendor, idProduct) plus the device number distinguishing
physical devices on a bus. -/
structure Device where
  idVendor : Nat
  idProduct : Nat
  devnum : Nat
deriving DecidableEq, Repr

/-- `struct Product`: a registry entry (vendor id, product id, name). -/
structure Product where
  vendor : Nat
  id : Nat
  name : String
deriving DecidableEq, Repr

/-- `ProductList`: the compiled-in product registry of comm.c.  The
commented-out 0x1130:0x660c entry is not part of the list. -/
def ProductList : List Product :=
  [⟨0x0c45, 0x7401, "RDing TEMPer2V1.3"⟩,
   ⟨0x0c45, 0x7402, "RDing TEMPerHumiV1.1"⟩]

/-- Registry lookup: linear search of `ProductList` with the equality test
used by the matcher loop (lines 163-176 of comm.c). -/
def lookup (v p : Nat) : Option Product :=
  ProductList.find? (fun prod => prod.vendor == v && prod.id == p)

/-- The session object `struct Temper` (device, debug flag, timeout,
matched product; the raw handle pointer carries no data and is elided). -/
structure Temper where
  device : Device
  debug : Bool
  timeout : Int
  product : Product
deriving DecidableEq, Repr

/-- Value of the C cast `(int8_t) b` for a byte `b` (twos complement). -/
def toInt8 (b : Nat) : Int :=
  if b % 256 < 128 then ((b % 256 : Nat) : Int) else ((b % 256 : Nat) : Int) - 256

/-- `TemperByteToCelcius` (comm.c lines 269-278):
`int16_t word = ((int8_t)high << 8) | low;  return word * (125.0/32000.0)`.
Since the low 8 bits of `(int8_t)high << 8` are zero, the bitwise or equals
addition, and the result fits int16_t exactly.  The scale 125/32000 = 2^-8
and |word| <= 2^15 make the float arithmetic exact, so the result is
modelled as a rational.  The Temper argument is taken (as in the source)
but unused: the calibration-offset hook is disabled in the source. -/
def TemperByteToCelcius (_t : Temper) (high low : Nat) : ℚ :=
  let word : Int := toInt8 high * 256 + ((low % 256 : Nat) : Int)
  (word : ℚ) * (125 / 32000)

/-- A control request as issued by `usb_control_msg`: request type,
request, value, index, payload bytes, timeout. -/
structure ControlRequest where
  requesttype : Nat
  request : Nat
  value : Nat
  index : Nat
  payload : List Nat
  timeout : Int
deriving DecidableEq, Repr

/-- The 72-byte zero-filled frame of `TemperSendCommand8`: `bzero` then the
eight arguments stored through `unsigned char` (mod 256). -/
def commandFrame8 (a b c d e f g h : Nat) : List Nat :=
  [a % 256, b % 256, c % 256, d % 256, e % 256, f % 256, g % 256, h % 256] ++
    List.replicate 64 0

/-- The 72-byte zero-filled frame of `TemperSendCommand2`. -/
def commandFrame2 (a b : Nat) : List Nat :=
  [a % 256, b % 256] ++ List.replicate 70 0

/-- `TemperSendCommand8` (comm.c lines 193-222).  `transport` is the oracle
for `usb_control_msg`, returning the reported byte count.  The result is
the issued request, the return code (0 on success, -1 when the reported
count differs from sizeof(buf) = 72), and the debug log. -/
def TemperSendCommand8 (t : Temper) (transport : ControlRequest → Int)
    (a b c d e f g h : Nat) : ControlRequest × Int × List String :=
  let buf := commandFrame8 a b c d e f g h
  let log : List String := if t.debug then
    ["sending bytes " ++ toString (a % 256) ++ ", " ++ toString (b % 256) ++
      " ... (buffer len = 72)"] else []
  let req : ControlRequest := ⟨0x21, 9, 0x200, 0x01, buf, t.timeout⟩
  let ret := transport req
  (req, (if ret ≠ 72 then (-1 : Int) else 0), log)

/-- `TemperSendCommand2` (comm.c lines 224-247): same framing, control
parameters value 0x201, index 0x00. -/
def TemperSendCommand2 (t : Temper) (transport : ControlRequest → Int)
    (a b : Nat) : ControlRequest × Int × List String :=
  let buf := commandFrame2 a b
  let log : List String := if t.debug then
    ["sending bytes " ++ toString (a % 256) ++ ", " ++ toString (b % 256) ++
      " (buffer len = 72)"] else []
  let req : ControlRequest := ⟨0x21, 9, 0x201, 0x00, buf, t.timeout⟩
  let ret := transport req
  (req, (if ret ≠ 72 then (-1 : Int) else 0), log)

/-- Outcome of one `usb_interrupt_read` call: the reported count (negative
on error) and the bytes the device wrote into the buffer. -/
structure ReadOutcome where
  count : Int
  bytes : List Nat
deriving DecidableEq, Repr

/-- `TemperInterruptRead` (comm.c lines 249-267).  `usbRead` is the oracle
for `usb_interrupt_read`, indexed by (endpoint, length, timeout).  Returns
the buffer after the call (delivered bytes overwrite a prefix, the rest
keeps its previous contents), the reported count, and the debug log. -/
def TemperInterruptRead (t : Temper) (usbRead : Nat → Nat → Int → ReadOutcome)
    (buf : List Nat) : List Nat × Int × List String :=
  let log0 : List String := if t.debug then ["interrupt read"] else []
  let out := usbRead 0x82 buf.length t.timeout
  let buf2 := (out.bytes ++ buf.drop out.bytes.length).take buf.length
  let log1 : List String := if t.debug then
    ["receiving " ++ toString out.count ++ " bytes",
     toString (buf2.take out.count.toNat)] else []
  (buf2, out.count, log0 ++ log1)

/-- The two decoded temperatures, `struct TemperData`. -/
structure TemperData where
  tempA : ℚ
  tempB : ℚ
deriving DecidableEq, Repr

/-- `TemperGetData` (comm.c lines 280-289): interrupt-read 8 bytes into a
stack buffer, then decode offsets (2,3) into tempA and (4,5) into tempB
unconditionally, returning the read count.  `stackJunk` models the
uninitialized contents of the stack buffer. -/
def TemperGetData (t : Temper) (usbRead : Nat → Nat → Int → ReadOutcome)
    (stackJunk : List Nat) : TemperData × Int × List String :=
  let buf0 := (stackJunk ++ List.replicate 8 0).take 8
  let r := TemperInterruptRead t usbRead buf0
  let buf := r.1
  (⟨TemperByteToCelcius t (buf.getD 2 0) (buf.getD 3 0),
    TemperByteToCelcius t (buf.getD 4 0) (buf.getD 5 0)⟩, r.2.1, r.2.2)

/-- The buffer contents after the interrupt read inside `TemperGetData`. -/
def responseBuffer (t : Temper) (usbRead : Nat → Nat → Int → ReadOutcome)
    (stackJunk : List Nat) : List Nat :=
  (TemperInterruptRead t usbRead ((stackJunk ++ List.replicate 8 0).take 8)).1

/-- Result of one `usb_detach_kernel_driver_np` call: its return value and
the errno it leaves behind. -/
structure DetachResult where
  ret : Int
  errnoVal : Nat
deriving DecidableEq, Repr

/-- errno value ENODATA (Linux), the "no kernel driver attached" case. -/
def ENODATA : Nat := 61

/-- Oracle for the USB calls `TemperCreate` makes on one device:
whether `usb_open` succeeds, the outcome of each detach attempt (by
interface number), and the return values of `usb_set_configuration` (by
configuration number) and `usb_claim_interface` (by interface number). -/
structure UsbHandleOps where
  openOk : Bool
  detach : Nat → DetachResult
  setConfiguration : Nat → Int
  claimInterface : Nat → Int

/-- USB calls observable through the handle, for tracing resource use. -/
inductive UsbEvent where
  | openDev
  | closeDev
  | detachKernelDriver (iface : Nat)
  | setConfig (cfg : Nat)
  | claim (iface : Nat)
deriving DecidableEq, Repr

/-- Debug log of one detach attempt (comm.c lines 101-135): a failing
detach with errno ENODATA logs "Device already detached", any other
failure logs "Detach failed" and "Continuing anyway", success logs
"detach successful"; nothing is logged outside debug mode. -/
def detachLog (debug : Bool) (r : DetachResult) : List String :=
  if r.ret ≠ 0 then
    if r.errnoVal = ENODATA then
      if debug then ["Device already detached"] else []
    else if debug then ["Detach failed", "Continuing anyway"] else []
  else if debug then ["detach successful"] else []

/-- `TemperCreate` (comm.c lines 74-145).  Opens the device; on open
failure returns NULL with nothing to close.  Then detaches the kernel
driver from interfaces 0 and 1 (outcomes only logged), then
`usb_set_configuration(h,1) < 0 || usb_claim_interface(h,0) < 0 ||
usb_claim_interface(h,1)` with C short-circuit evaluation; if that
disjunction holds the handle is closed and NULL returned, otherwise the
session is returned.  Result: the session (or none), the trace of USB
calls made, and the debug log. -/
def TemperCreate (ops : UsbHandleOps) (dev : Device) (timeout : Int)
    (debug : Bool) (product : Product) :
    Option Temper × List UsbEvent × List String :=
  let log0 : List String := if debug then
    ["Temper device " ++ product.name] else []
  if ops.openOk = false then
    (none, [UsbEvent.openDev], log0)
  else
    let log1 := log0 ++ (if debug then ["Trying to detach kernel driver"] else [])
    let d0 := ops.detach 0
    let d1 := ops.detach 1
    let log2 := log1 ++ detachLog debug d0 ++ detachLog debug d1
    let ev := [UsbEvent.openDev, UsbEvent.detachKernelDriver 0,
               UsbEvent.detachKernelDriver 1]
    if ops.setConfiguration 1 < 0 then
      (none, ev ++ [UsbEvent.setConfig 1, UsbEvent.closeDev], log2)
    else if ops.claimInterface 0 < 0 then
      (none, ev ++ [UsbEvent.setConfig 1, UsbEvent.claim 0, UsbEvent.closeDev],
       log2)
    else if ops.claimInterface 1 ≠ 0 then
      (none, ev ++ [UsbEvent.setConfig 1, UsbEvent.claim 0, UsbEvent.claim 1,
                    UsbEvent.closeDev], log2)
    else
      (some ⟨dev, debug, timeout, product⟩,
       ev ++ [UsbEvent.setConfig 1, UsbEvent.claim 0, UsbEvent.claim 1], log2)

/-- The registry entries matching a device, in registry order: the filter
of `ProductList` by the equality test of the matcher loop. -/
def deviceMatches (prods : List Product) (dev : Device) : List Product :=
  prods.filter (fun p => p.vendor == dev.idVendor && p.id == dev.idProduct)

/-- Inner loop of `TemperCreateFromDeviceNumber` (comm.c lines 163-176):
scan the product list for matches with the current device; at each match,
if the running match counter `n` equals `target` the match is selected
(`Sum.inl`), otherwise the counter is incremented; when the list is
exhausted the updated counter is returned (`Sum.inr`).  The second
component is the debug log ("Found deviceNum n" per match). -/
def findMatchInProducts (debug : Bool) (prods : List Product) (dev : Device)
    (n target : Nat) : (Product ⊕ Nat) × List String :=
  match prods with
  | [] => (Sum.inr n, [])
  | p :: rest =>
      if p.vendor == dev.idVendor && p.id == dev.idProduct then
        let l : List String := if debug then
          ["Found deviceNum " ++ toString n] else []
        if n = target then (Sum.inl p, l)
        else
          let r := findMatchInProducts debug rest dev (n + 1) target
          (r.1, l ++ r.2)
      else findMatchInProducts debug rest dev n target

/-- Middle loop of `TemperCreateFromDeviceNumber`: scan the devices of one
bus, logging each device examined, threading the match counter. -/
def findDevice (debug : Bool) (devs : List Device) (n target : Nat) :
    ((Device × Product) ⊕ Nat) × List String :=
  match devs with
  | [] => (Sum.inr n, [])
  | d :: rest =>
      let l0 : List String := if debug then
        ["Found device: " ++ toString d.idVendor ++ ":" ++ toString d.idProduct]
        else []
      let r := findMatchInProducts debug ProductList d n target
      match r.1 with
      | Sum.inl p => (Sum.inl (d, p), l0 ++ r.2)
      | Sum.inr n2 =>
          let r2 := findDevice debug rest n2 target
          (r2.1, l0 ++ r.2 ++ r2.2)

/-- Outer loop of `TemperCreateFromDeviceNumber`: scan the busses in
enumeration order, threading the match counter. -/
def findDeviceInBusses (debug : Bool) (busses : List (List Device))
    (n target : Nat) : ((Device × Product) ⊕ Nat) × List String :=
  match busses with
  | [] => (Sum.inr n, [])
  | b :: rest =>
      let r := findDevice debug b n target
      match r.1 with
      | Sum.inl dp => (Sum.inl dp, r.2)
      | Sum.inr n2 =>
          let r2 := findDeviceInBusses debug rest n2 target
          (r2.1, r.2 ++ r2.2)

/-- `TemperCreateFromDeviceNumber` (comm.c lines 147-180).  `world` gives
the USB oracle for each device.  When the scan selects the `deviceNum`-th
match the result is that of `TemperCreate` on it; otherwise NULL. -/
def TemperCreateFromDeviceNumber (world : Device → UsbHandleOps)
    (busses : List (List Device)) (deviceNum : Nat) (timeout : Int)
    (debug : Bool) : Option Temper × List UsbEvent × List String :=
  let r := findDeviceInBusses debug busses 0 deviceNum
  match r.1 with
  | Sum.inl dp =>
      let c := TemperCreate (world dp.1) dp.1 timeout debug dp.2
      (c.1, c.2.1, r.2 ++ c.2.2)
  | Sum.inr _ => (none, [], r.2)

/-- The matching devices of an enumeration, numbered in enumeration order:
every device of every bus, paired with each registry entry it matches.
The scan of `TemperCreateFromDeviceNumber` selects the `target`-th element
of this list (proved below). -/
def allMatches (busses : List (List Device)) : List (Device × Product) :=
  (busses.flatten).flatMap
    (fun d => (deviceMatches ProductList d).map (fun p => (d, p)))

/-- The matches contributed by the devices of one bus, in order. -/
def busMatches (devs : List Device) : List (Device × Product) :=
  devs.flatMap (fun d => (deviceMatches ProductList d).map (fun p => (d, p)))

/-- The caller-observable payload of a session: device, timeout and matched
product (everything except the debug flag the caller itself supplied). -/
def Temper.obs (t : Temper) : Device × Int × Product :=
  (t.device, t.timeout, t.product)

/-- A concrete session object, used to instantiate universally quantified
statements at a sample input. -/
def sampleTemper : Temper :=
  ⟨⟨0x0c45, 0x7401, 1⟩, false, 1000, ⟨0x0c45, 0x7401, "RDing TEMPer2V1.3"⟩⟩

/-- Default element used with `List.getD` on the match list. -/
def dummyMatch : Device × Product := (⟨0, 0, 0⟩, ⟨0, 0, ""⟩)

/-- A transport oracle whose interrupt reads deliver only 3 bytes. -/
def shortReadOracle : Nat → Nat → Int → ReadOutcome :=
  fun _ _ _ => ⟨3, [0x80, 0x02, 0x01]⟩

/-- A transport oracle whose interrupt reads deliver the 8-byte response
of the end-to-end scenario of the spec. -/
def fullReadOracle : Nat → Nat → Int → ReadOutcome :=
  fun _ _ _ => ⟨8, [0x80, 0x02, 0x01, 0x90, 0xFF, 0x70, 0x00, 0x00]⟩

/-- A control-message oracle that accepts every payload in full. -/
def acceptAllTransport : ControlRequest → Int :=
  fun req => (req.payload.length : Int)

/-- A USB oracle on which every call succeeds. -/
def okOps : UsbHandleOps :=
  ⟨true, fun _ => ⟨0, 0⟩, fun _ => 0, fun _ => 0⟩

/-- A USB oracle on which `usb_open` itself fails. -/
def openFailOps : UsbHandleOps :=
  ⟨false, fun _ => ⟨0, 0⟩, fun _ => 0, fun _ => 0⟩

/-- A USB oracle on which the claim of interface 1 fails. -/
def claim1FailOps : UsbHandleOps :=
  ⟨true, fun _ => ⟨0, 0⟩, fun _ => 0, fun i => if i = 1 then -1 else 0⟩

/-- A USB oracle on which both detach attempts fail with a non-ENODATA
errno. -/
def detachFailOps : UsbHandleOps :=
  ⟨true, fun _ => ⟨-1, 16⟩, fun _ => 0, fun _ => 0⟩

/-- A sample enumeration: two busses, four devices, three of which match
the registry (in order: 0x7401 at devnum 1, 0x7402 at devnum 3, 0x7401 at
devnum 4; the 0x1130:0x660c device is not registered). -/
def sampleBusses : List (List Device) :=
  [[⟨0x0c45, 0x7401, 1⟩, ⟨0x1130, 0x660c, 2⟩],
   [⟨0x0c45, 0x7402, 3⟩, ⟨0x0c45, 0x7401, 4⟩]]

theorem findMatchInProducts_fst (debug : Bool) (prods : List Product)
    (dev : Device) (target : Nat) :
    ∀ n, n ≤ target →
      (findMatchInProducts debug prods dev n target).1 =
        match (deviceMatches prods dev)[target - n]? with
        | some p => Sum.inl p
        | none => Sum.inr (n + (deviceMatches prods dev).length) := by
  induction prods with
  | nil =>
      intro n _
      simp [findMatchInProducts, deviceMatches]
  | cons p rest ih =>
      intro n hn
      by_cases hc : (p.vendor == dev.idVendor && p.id == dev.idProduct) = true
      · by_cases he : n = target
        · subst he
          simp [findMatchInProducts, hc, deviceMatches, List.filter_cons]
        · have hn1 : n + 1 ≤ target := Nat.lt_of_le_of_ne hn he
          have hsub : target - n = (target - (n + 1)) + 1 := by omega
          simp only [findMatchInProducts, hc, if_true, if_neg he]
          rw [ih (n + 1) hn1]
          simp only [deviceMatches, List.filter_cons, hc, if_true, hsub,
            List.getElem?_cons_succ, List.length_cons]
          rcases h : (List.filter
              (fun q => q.vendor == dev.idVendor && q.id == dev.idProduct)
              rest)[target - (n + 1)]? with _ | q
          · simp [h]
            omega
          · simp [h]
      · simp only [findMatchInProducts, hc, Bool.false_eq_true, if_false]
        rw [ih n hn]
        simp [deviceMatches, List.filter_cons, hc]

theorem findDevice_fst (debug : Bool) (target : Nat) :
    ∀ (devs : List Device) (n : Nat), n ≤ target →
      (findDevice debug devs n target).1 =
        match (busMatches devs)[target - n]? with
        | some dp => Sum.inl dp
        | none => Sum.inr (n + (busMatches devs).length) := by
  intro devs
  induction devs with
  | nil =>
      intro n _
      simp [findDevice, busMatches]
  | cons d rest ih =>
      intro n hn
      have hbm : busMatches (d :: rest) =
          (deviceMatches ProductList d).map (fun p => (d, p)) ++
            busMatches rest := by
        simp [busMatches]
      simp only [findDevice]
      rw [findMatchInProducts_fst debug ProductList d target n hn]
      rcases h : (deviceMatches ProductList d)[target - n]? with _ | p
      · have hlen : (deviceMatches ProductList d).length ≤ target - n := by
          exact List.getElem?_eq_none_iff.mp h
        have hn2 : n + (deviceMatches ProductList d).length ≤ target := by omega
        simp only []
        rw [ih (n + (deviceMatches ProductList d).length) hn2]
        rw [hbm]
        rw [List.getElem?_append_right (by simpa using hlen)]
        simp only [List.length_map, List.length_append]
        have : target - n - (deviceMatches ProductList d).length =
            target - (n + (deviceMatches ProductList d).length) := by omega
        rw [this]
        rcases h2 : (busMatches rest)[target -
            (n + (deviceMatches ProductList d).length)]? with _ | dp
        · simp
          omega
        · simp
      · obtain ⟨hlt, -⟩ := List.getElem?_eq_some_iff.mp h
        simp only []
        rw [hbm, List.getElem?_append_left (by simpa using hlt),
          List.getElem?_map, h]
        simp

theorem findDeviceInBusses_fst (debug : Bool) (target : Nat) :
    ∀ (busses : List (List Device)) (n : Nat), n ≤ target →
      (findDeviceInBusses debug busses n target).1 =
        match (allMatches busses)[target - n]? with
        | some dp => Sum.inl dp
        | none => Sum.inr (n + (allMatches busses).length) := by
  intro busses
  induction busses with
  | nil =>
      intro n _
      simp [findDeviceInBusses, allMatches]
  | cons b rest ih =>
      intro n hn
      have ham : allMatches (b :: rest) = busMatches b ++ allMatches rest := by
        simp [allMatches, busMatches]
      simp only [findDeviceInBusses]
      rw [findDevice_fst debug target b n hn]
      rcases h : (busMatches b)[target - n]? with _ | dp
      · have hlen : (busMatches b).length ≤ target - n :=
          List.getElem?_eq_none_iff.mp h
        have hn2 : n + (busMatches b).length ≤ target := by omega
        simp only []
        rw [ih (n + (busMatches b).length) hn2]
        rw [ham, List.getElem?_append_right hlen]
        have : target - n - (busMatches b).length =
            target - (n + (busMatches b).length) := by omega
        rw [this]
        rcases h2 : (allMatches rest)[target -
            (n + (busMatches b).length)]? with _ | dp
        · simp
          omega
        · simp
      · obtain ⟨hlt, -⟩ := List.getElem?_eq_some_iff.mp h
        simp only []
        rw [ham, List.getElem?_append_left hlt, h]

/-- The scan of `TemperCreateFromDeviceNumber` selects exactly the
`deviceNum`-th element of `allMatches`; the session result is that of
`TemperCreate` on it, or none when no such match exists. -/
theorem findNth_fst (world : Device → UsbHandleOps)
    (busses : List (List Device)) (deviceNum : Nat) (timeout : Int)
    (debug : Bool) :
    (TemperCreateFromDeviceNumber world busses deviceNum timeout debug).1 =
      match (allMatches busses)[deviceNum]? with
      | some dp => (TemperCreate (world dp.1) dp.1 timeout debug dp.2).1
      | none => none := by
  have h := findDeviceInBusses_fst debug deviceNum busses 0 (Nat.zero_le _)
  simp only [Nat.sub_zero] at h
  simp only [TemperCreateFromDeviceNumber]
  rcases h2 : (allMatches busses)[deviceNum]? with _ | dp
  · rw [h2] at h
    simp only [] at h
    rw [h]
  · rw [h2] at h
    simp only [] at h
    rw [h]

/-- Same, for the trace of USB calls. -/
theorem findNth_events (world : Device → UsbHandleOps)
    (busses : List (List Device)) (deviceNum : Nat) (timeout : Int)
    (debug : Bool) :
    (TemperCreateFromDeviceNumber world busses deviceNum timeout debug).2.1 =
      match (allMatches busses)[deviceNum]? with
      | some dp => (TemperCreate (world dp.1) dp.1 timeout debug dp.2).2.1
      | none => [] := by
  have h := findDeviceInBusses_fst debug deviceNum busses 0 (Nat.zero_le _)
  simp only [Nat.sub_zero] at h
  simp only [TemperCreateFromDeviceNumber]
  rcases h2 : (allMatches busses)[deviceNum]? with _ | dp
  · rw [h2] at h
    simp only [] at h
    rw [h]
  · rw [h2] at h
    simp only [] at h
    rw [h]

/-- A device matches at most one registry entry: the two registered
(vendor, id) pairs differ in the product id. -/
theorem deviceMatches_short (dev : Device) :
    deviceMatches ProductList dev = [] ∨
      ∃ p, deviceMatches ProductList dev = [p] := by
  simp only [deviceMatches, ProductList, List.filter_cons, List.filter_nil]
  cases hv1 : ((0x0c45 : Nat) == dev.idVendor &&
      (0x7401 : Nat) == dev.idProduct) with
  | false =>
      cases hv2 : ((0x0c45 : Nat) == dev.idVendor &&
          (0x7402 : Nat) == dev.idProduct) with
      | false => simp [hv1, hv2]
      | true => simp [hv1, hv2]
  | true =>
      cases hv2 : ((0x0c45 : Nat) == dev.idVendor &&
          (0x7402 : Nat) == dev.idProduct) with
      | false => simp [hv1, hv2]
      | true =>
          exfalso
          simp only [Bool.and_eq_true, beq_iff_eq] at hv1 hv2
          omega

theorem mem_busMatches_fst (devs : List Device) (x : Device × Product)
    (hx : x ∈ busMatches devs) : x.1 ∈ devs := by
  simp only [busMatches, List.mem_flatMap] at hx
  obtain ⟨d, hd, hx2⟩ := hx
  simp only [List.mem_map] at hx2
  obtain ⟨p, -, rfl⟩ := hx2
  exact hd

/-- With no duplicate devices, the device components of the match list are
pairwise distinct. -/
theorem busMatches_fst_nodup (devs : List Device) (h : devs.Nodup) :
    ((busMatches devs).map Prod.fst).Nodup := by
  induction devs with
  | nil => simp [busMatches]
  | cons d rest ih =>
      have hd : d ∉ rest := (List.nodup_cons.mp h).1
      have hbm : busMatches (d :: rest) =
          (deviceMatches ProductList d).map (fun p => (d, p)) ++
            busMatches rest := by
        simp [busMatches]
      rw [hbm, List.map_append]
      apply List.Nodup.append
      · rcases deviceMatches_short d with h0 | ⟨p, hp⟩
        · simp [h0]
        · simp [hp]
      · exact ih (List.nodup_cons.mp h).2
      · intro x hx1 hx2
        simp only [List.map_map, List.mem_map, Function.comp] at hx1
        obtain ⟨p, -, rfl⟩ := hx1
        simp only [List.mem_map] at hx2
        obtain ⟨y, hy, hyx⟩ := hx2
        exact hd (hyx ▸ mem_busMatches_fst rest y hy)

theorem allMatches_eq_busMatches (busses : List (List Device)) :
    allMatches busses = busMatches busses.flatten := rfl

theorem stackBuffer_length (stackJunk : List Nat) :
    ((stackJunk ++ List.replicate 8 0).take 8).length = 8 := by
  simp [List.length_take]

/-- Explicit form of `TemperGetData`: the two fields are always the decoded
bytes at offsets (2,3) and (4,5) of the post-read buffer, and the returned
count is exactly what the interrupt read reported for endpoint 0x82. -/
theorem TemperGetData_eq (t : Temper) (usbRead : Nat → Nat → Int → ReadOutcome)
    (stackJunk : List Nat) :
    TemperGetData t usbRead stackJunk =
      (⟨TemperByteToCelcius t ((responseBuffer t usbRead stackJunk).getD 2 0)
          ((responseBuffer t usbRead stackJunk).getD 3 0),
        TemperByteToCelcius t ((responseBuffer t usbRead stackJunk).getD 4 0)
          ((responseBuffer t usbRead stackJunk).getD 5 0)⟩,
       (usbRead 0x82 8 t.timeout).count,
       (TemperInterruptRead t usbRead
         ((stackJunk ++ List.replicate 8 0).take 8)).2.2) := by
  simp only [TemperGetData, responseBuffer, TemperInterruptRead,
    stackBuffer_length]

/-- The session result and USB-call trace of `TemperCreate` do not depend
on the debug flag except for the flag stored in the returned session. -/
theorem TemperCreate_debug_irrel (ops : UsbHandleOps) (dev : Device)
    (timeout : Int) (product : Product) (d1 d2 : Bool) :
    (TemperCreate ops dev timeout d1 product).1.map Temper.obs =
        (TemperCreate ops dev timeout d2 product).1.map Temper.obs ∧
      (TemperCreate ops dev timeout d1 product).2.1 =
        (TemperCreate ops dev timeout d2 product).2.1 := by
  by_cases ho : ops.openOk = false <;>
    by_cases h1 : ops.setConfiguration 1 < 0 <;>
      by_cases h2 : ops.claimInterface 0 < 0 <;>
        by_cases h3 : ops.claimInterface 1 ≠ 0 <;>
          simp [TemperCreate, Temper.obs, ho, h1, h2, h3]

/-- C1: for every byte pair (high, low) the decoder forms the signed
16-bit word sign_extend(high) * 256 + low (the bitwise or of the C source
coincides with addition because the low byte of the shifted value is zero)
and scales it by 125/32000 — exactly, since 125/32000 = 2^-8 and the word
is exactly representable, so the rational model coincides with the float
computation of the source; `TemperGetData` applies this decoder to the
response bytes at offsets (2,3) for tempA and (4,5) for tempB; decoding
(0x00,0x00) gives 0, (0x01,0x90) gives 1.5625 = 25/16 and (0xFF,0x70)
(word -144) gives -0.5625 = -9/16. -/
theorem claim_C1_decoder (t : Temper) (high low : Nat) (_hh : high < 256)
    (hl : low < 256) :
    TemperByteToCelcius t high low =
        ((toInt8 high * 256 + (low : Int) : Int) : ℚ) * 125 / 32000 ∧
      TemperByteToCelcius t 0x00 0x00 = 0 ∧
      TemperByteToCelcius t 0x01 0x90 = 25 / 16 ∧
      TemperByteToCelcius t 0xFF 0x70 = -(9 / 16) ∧
      ∀ (usbRead : Nat → Nat → Int → ReadOutcome) (stackJunk : List Nat),
        (TemperGetData t usbRead stackJunk).1.tempA =
            TemperByteToCelcius t
              ((responseBuffer t usbRead stackJunk).getD 2 0)
              ((responseBuffer t usbRead stackJunk).getD 3 0) ∧
          (TemperGetData t usbRead stackJunk).1.tempB =
            TemperByteToCelcius t
              ((responseBuffer t usbRead stackJunk).getD 4 0)
              ((responseBuffer t usbRead stackJunk).getD 5 0) := by
  refine ⟨?_, ?_, ?_, ?_, ?_⟩
  · simp only [TemperByteToCelcius, Nat.mod_eq_of_lt hl]
    rw [mul_div_assoc]
  · norm_num [TemperByteToCelcius, toInt8]
  · norm_num [TemperByteToCelcius, toInt8]
  · norm_num [TemperByteToCelcius, toInt8]
  · intro usbRead stackJunk
    rw [TemperGetData_eq]
    exact ⟨rfl, rfl⟩

/-- Witness for C1 at the byte pair (0xFF, 0x70). -/
theorem claim_C1_decoder_witness :
    (0xFF : Nat) < 256 ∧ (0x70 : Nat) < 256 ∧
      TemperByteToCelcius sampleTemper 0xFF 0x70 = -(9 / 16) :=
  ⟨by norm_num, by norm_num,
    (claim_C1_decoder sampleTemper 0xFF 0x70 (by norm_num)
      (by norm_num)).2.2.2.1⟩

/-- C2: the number of `usb_close` calls in a `TemperCreate` run is one
exactly when the open succeeded and the construction then failed, and zero
otherwise — so every failure after a successful open closes the handle
exactly once, the success path leaves the one live handle, and an open
failure closes nothing. -/
theorem claim_C2_close_once (ops : UsbHandleOps) (dev : Device)
    (timeout : Int) (debug : Bool) (product : Product) :
    ((TemperCreate ops dev timeout debug product).2.1.count
        UsbEvent.closeDev) =
      (if ops.openOk = true ∧
          (TemperCreate ops dev timeout debug product).1 = none
        then 1 else 0) := by
  by_cases ho : ops.openOk = false <;>
    by_cases h1 : ops.setConfiguration 1 < 0 <;>
      by_cases h2 : ops.claimInterface 0 < 0 <;>
        by_cases h3 : ops.claimInterface 1 ≠ 0 <;>
          simp [TemperCreate, ho, h1, h2, h3, List.count_cons, List.count_nil,
            Bool.not_eq_false]

/-- C4: `TemperGetData` returns, unmodified, the byte count the interrupt
read on endpoint 0x82 reported; whenever that count is short of the
expected 8 bytes the returned value differs from 8, so the failure of that
poll is surfaced to the caller rather than masked; `TemperInterruptRead`
itself also passes the reported count through for any buffer length. -/
theorem claim_C4_short_read (t : Temper)
    (usbRead : Nat → Nat → Int → ReadOutcome) (stackJunk : List Nat) :
    (TemperGetData t usbRead stackJunk).2.1 =
        (usbRead 0x82 8 t.timeout).count ∧
      ((usbRead 0x82 8 t.timeout).count < 8 →
        (TemperGetData t usbRead stackJunk).2.1 ≠ 8) ∧
      ∀ (buf : List Nat),
        (TemperInterruptRead t usbRead buf).2.1 =
          (usbRead 0x82 buf.length t.timeout).count := by
  refine ⟨?_, ?_, ?_⟩
  · rw [TemperGetData_eq]
  · intro hshort
    rw [TemperGetData_eq]
    show (usbRead 0x82 8 t.timeout).count ≠ 8
    omega
  · intro buf
    simp [TemperInterruptRead]

/-- Witness for C4 on a transport delivering only 3 of 8 bytes. -/
theorem claim_C4_short_read_witness :
    (shortReadOracle 0x82 8 sampleTemper.timeout).count < 8 ∧
      (TemperGetData sampleTemper shortReadOracle []).2.1 ≠ 8 :=
  ⟨by decide,
    (claim_C4_short_read sampleTemper shortReadOracle []).2.1 (by decide)⟩

/-- C7 counterexample: at the registered pair (0x0c45, 0x7401) the
registry name is "RDing TEMPer2V1.3", not the "TEMPer2V1.3" the claim
states (likewise 0x7402 carries "RDing TEMPerHumiV1.1", not
"TEMperHumiV1.1"). -/
theorem claim_C7_registry_cex :
    (lookup 0x0c45 0x7401).map Product.name = some "RDing TEMPer2V1.3" ∧
      (lookup 0x0c45 0x7401).map Product.name ≠ some "TEMPer2V1.3" ∧
      (lookup 0x0c45 0x7402).map Product.name = some "RDing TEMPerHumiV1.1" ∧
      (lookup 0x0c45 0x7402).map Product.name ≠ some "TEMperHumiV1.1" := by
  refine ⟨rfl, ?_, rfl, ?_⟩ <;> decide

/-- C7 (amended): registry lookup returns the descriptor named
"RDing TEMPer2V1.3" for (0x0c45, 0x7401) and "RDing TEMPerHumiV1.1" for
(0x0c45, 0x7402), returns none for every other pair — in particular for
(0x1130, 0x660c) — and the registered (vendor, id) pairs are unique. -/
theorem claim_C7_registry (v p : Nat)
    (h : ¬(v = 0x0c45 ∧ (p = 0x7401 ∨ p = 0x7402))) :
    lookup 0x0c45 0x7401 = some ⟨0x0c45, 0x7401, "RDing TEMPer2V1.3"⟩ ∧
      lookup 0x0c45 0x7402 = some ⟨0x0c45, 0x7402, "RDing TEMPerHumiV1.1"⟩ ∧
      lookup 0x1130 0x660c = none ∧
      lookup v p = none ∧
      (ProductList.map (fun q => (q.vendor, q.id))).Nodup := by
  refine ⟨rfl, rfl, by decide, ?_, by decide⟩
  simp only [lookup, ProductList]
  rw [List.find?_cons_of_neg, List.find?_cons_of_neg, List.find?_nil]
  · simp only [Bool.and_eq_true, beq_iff_eq]
    intro hx
    exact h ⟨hx.1.symm, Or.inr hx.2.symm⟩
  · simp only [Bool.and_eq_true, beq_iff_eq]
    intro hx
    exact h ⟨hx.1.symm, Or.inl hx.2.symm⟩

/-- Witness for C7 (amended) at the unregistered pair (0x1130, 0x660c). -/
theorem claim_C7_registry_witness :
    ¬((0x1130 : Nat) = 0x0c45 ∧
        ((0x660c : Nat) = 0x7401 ∨ (0x660c : Nat) = 0x7402)) ∧
      lookup 0x1130 0x660c = none :=
  ⟨by decide, (claim_C7_registry 0x1130 0x660c (by decide)).2.2.2.1⟩

/-- C9: `TemperGetData` writes both output fields on every call — they are
always the decoded byte pairs at offsets (2,3) and (4,5) of the buffer
after the interrupt read, even when the read reported fewer than 8 bytes,
in which case the failing count is returned alongside the decoded
fields. -/
theorem claim_C9_always_writes (t : Temper)
    (usbRead : Nat → Nat → Int → ReadOutcome) (stackJunk : List Nat) :
    (TemperGetData t usbRead stackJunk).1 =
        ⟨TemperByteToCelcius t ((responseBuffer t usbRead stackJunk).getD 2 0)
            ((responseBuffer t usbRead stackJunk).getD 3 0),
          TemperByteToCelcius t
            ((responseBuffer t usbRead stackJunk).getD 4 0)
            ((responseBuffer t usbRead stackJunk).getD 5 0)⟩ ∧
      (TemperGetData t usbRead stackJunk).2.1 =
        (usbRead 0x82 8 t.timeout).count := by
  rw [TemperGetData_eq]
  exact ⟨rfl, rfl⟩

theorem detachLog_false (r : DetachResult) : detachLog false r = [] := by
  simp [detachLog]

/-- C3: `TemperSendCommand8` issues one control request with recipient
code 0x21, request 9, value 0x200, index 0x01 and the session timeout,
whose 72-byte payload is the eight argument bytes followed by 64 zero
bytes; `TemperSendCommand2` issues the same zero-padded 72-byte frame with
the two bytes at the front, value 0x201, index 0x00; each returns success
(0) exactly when the transport reports that all 72 bytes were accepted,
and -1 (with no retry) on any other reported count. -/
theorem claim_C3_send_commands (t : Temper) (transport : ControlRequest → Int)
    (a b c d e f g h : Nat) (ha : a < 256) (hb : b < 256) (hc : c < 256)
    (hd : d < 256) (he : e < 256) (hf : f < 256) (hg : g < 256)
    (hh : h < 256) :
    (TemperSendCommand8 t transport a b c d e f g h).1 =
        ⟨0x21, 9, 0x200, 0x01, commandFrame8 a b c d e f g h, t.timeout⟩ ∧
      commandFrame8 a b c d e f g h =
        [a, b, c, d, e, f, g, h] ++ List.replicate 64 0 ∧
      (commandFrame8 a b c d e f g h).length = 72 ∧
      ((TemperSendCommand8 t transport a b c d e f g h).2.1 = 0 ↔
        transport ⟨0x21, 9, 0x200, 0x01, commandFrame8 a b c d e f g h,
          t.timeout⟩ = 72) ∧
      (transport ⟨0x21, 9, 0x200, 0x01, commandFrame8 a b c d e f g h,
          t.timeout⟩ ≠ 72 →
        (TemperSendCommand8 t transport a b c d e f g h).2.1 = -1) ∧
      (TemperSendCommand2 t transport a b).1 =
        ⟨0x21, 9, 0x201, 0x00, commandFrame2 a b, t.timeout⟩ ∧
      commandFrame2 a b = [a, b] ++ List.replicate 70 0 ∧
      (commandFrame2 a b).length = 72 ∧
      ((TemperSendCommand2 t transport a b).2.1 = 0 ↔
        transport ⟨0x21, 9, 0x201, 0x00, commandFrame2 a b, t.timeout⟩
          = 72) ∧
      (transport ⟨0x21, 9, 0x201, 0x00, commandFrame2 a b, t.timeout⟩ ≠ 72 →
        (TemperSendCommand2 t transport a b).2.1 = -1) := by
  refine ⟨rfl, ?_, ?_, ?_, ?_, rfl, ?_, ?_, ?_, ?_⟩
  · simp [commandFrame8, Nat.mod_eq_of_lt, ha, hb, hc, hd, he, hf, hg, hh]
  · simp [commandFrame8]
  · by_cases hr : transport ⟨0x21, 9, 0x200, 0x01,
        commandFrame8 a b c d e f g h, t.timeout⟩ = 72 <;>
      simp [TemperSendCommand8, hr]
  · intro hr
    simp [TemperSendCommand8, hr]
  · simp [commandFrame2, Nat.mod_eq_of_lt, ha, hb]
  · simp [commandFrame2]
  · by_cases hr : transport ⟨0x21, 9, 0x201, 0x00, commandFrame2 a b,
        t.timeout⟩ = 72 <;>
      simp [TemperSendCommand2, hr]
  · intro hr
    simp [TemperSendCommand2, hr]

/-- Witness for C3 at the read-trigger command bytes of getdegs. -/
theorem claim_C3_send_commands_witness :
    commandFrame8 10 11 12 13 0 0 2 0 =
      [10, 11, 12, 13, 0, 0, 2, 0] ++ List.replicate 64 0 :=
  (claim_C3_send_commands sampleTemper acceptAllTransport 10 11 12 13 0 0 2 0
    (by decide) (by decide) (by decide) (by decide) (by decide) (by decide)
    (by decide) (by decide)).2.1

/-- C5: the matcher scans busses and devices in enumeration order, keeping
exactly the devices whose (vendor, product) pair is registered, numbered
0, 1, 2, ... in that order (the list `allMatches`); the session is opened
for the match at the requested zero-based index; with k matches every
index at or beyond k yields no session (device not found); and with no
duplicate devices in the enumeration distinct indices below k select
distinct devices. -/
theorem claim_C5_findNth (world : Device → UsbHandleOps)
    (busses : List (List Device)) (n : Nat) (timeout : Int) (debug : Bool) :
    ((TemperCreateFromDeviceNumber world busses n timeout debug).1 =
        match (allMatches busses)[n]? with
        | some dp => (TemperCreate (world dp.1) dp.1 timeout debug dp.2).1
        | none => none) ∧
      ((allMatches busses).length ≤ n →
        (TemperCreateFromDeviceNumber world busses n timeout debug).1
          = none) ∧
      (busses.flatten.Nodup →
        ∀ i j, i < (allMatches busses).length →
          j < (allMatches busses).length → i ≠ j →
          ((allMatches busses).getD i dummyMatch).1 ≠
            ((allMatches busses).getD j dummyMatch).1) := by
  refine ⟨findNth_fst world busses n timeout debug, ?_, ?_⟩
  · intro hk
    rw [findNth_fst, List.getElem?_eq_none hk]
  · intro hnd i j hi hj hne
    have hfst : ((allMatches busses).map Prod.fst).Nodup := by
      rw [allMatches_eq_busMatches]
      exact busMatches_fst_nodup busses.flatten hnd
    have hgd : ∀ k (hk : k < (allMatches busses).length),
        ((allMatches busses).getD k dummyMatch).1 =
          ((allMatches busses).map Prod.fst).get ⟨k, by simpa using hk⟩ := by
      intro k hk
      rw [List.getD_eq_getElem?_getD, List.getElem?_eq_getElem hk]
      simp
    rw [hgd i hi, hgd j hj]
    intro heq
    have := (hfst.get_inj_iff).mp heq
    exact hne (congrArg Fin.val this)

/-- Witness for C5 on a four-device enumeration with three matches:
indices 0 and 1 select distinct devices, and index 3 is out of range. -/
theorem claim_C5_findNth_witness :
    (TemperCreateFromDeviceNumber (fun _ => okOps) sampleBusses 3 1000
        false).1 = none ∧
      ((allMatches sampleBusses).getD 0 dummyMatch).1 ≠
        ((allMatches sampleBusses).getD 1 dummyMatch).1 :=
  ⟨(claim_C5_findNth (fun _ => okOps) sampleBusses 3 1000 false).2.1
      (by decide),
    (claim_C5_findNth (fun _ => okOps) sampleBusses 3 1000 false).2.2
      (by decide) 0 1 (by decide) (by decide) (by decide)⟩

/-- C6: the two detach outcomes never determine the result of session
open: swapping the detach oracle changes neither the session result nor
the trace of USB calls, and outside debug mode not even the log; after a
successful open the routine always proceeds to set configuration 1,
claims interface 0 whenever set-configuration did not fail, and claims
interface 1 whenever neither previous step failed — independently of both
detach outcomes, whose only observable effect is debug-mode logging. -/
theorem claim_C6_detach_tolerated (ops : UsbHandleOps)
    (det1 det2 : Nat → DetachResult) (dev : Device) (timeout : Int)
    (debug : Bool) (product : Product) :
    ((TemperCreate ⟨ops.openOk, det1, ops.setConfiguration,
          ops.claimInterface⟩ dev timeout debug product).1 =
        (TemperCreate ⟨ops.openOk, det2, ops.setConfiguration,
          ops.claimInterface⟩ dev timeout debug product).1) ∧
      ((TemperCreate ⟨ops.openOk, det1, ops.setConfiguration,
          ops.claimInterface⟩ dev timeout debug product).2.1 =
        (TemperCreate ⟨ops.openOk, det2, ops.setConfiguration,
          ops.claimInterface⟩ dev timeout debug product).2.1) ∧
      (debug = false →
        (TemperCreate ⟨ops.openOk, det1, ops.setConfiguration,
            ops.claimInterface⟩ dev timeout debug product).2.2 =
          (TemperCreate ⟨ops.openOk, det2, ops.setConfiguration,
            ops.claimInterface⟩ dev timeout debug product).2.2) ∧
      (ops.openOk = true →
        UsbEvent.setConfig 1 ∈
            (TemperCreate ops dev timeout debug product).2.1 ∧
          (¬ops.setConfiguration 1 < 0 →
            UsbEvent.claim 0 ∈
              (TemperCreate ops dev timeout debug product).2.1) ∧
          (¬ops.setConfiguration 1 < 0 → ¬ops.claimInterface 0 < 0 →
            UsbEvent.claim 1 ∈
              (TemperCreate ops dev timeout debug product).2.1)) := by
  refine ⟨?_, ?_, ?_, ?_⟩
  · by_cases ho : ops.openOk = false <;>
      by_cases h1 : ops.setConfiguration 1 < 0 <;>
        by_cases h2 : ops.claimInterface 0 < 0 <;>
          by_cases h3 : ops.claimInterface 1 ≠ 0 <;>
            simp [TemperCreate, ho, h1, h2, h3]
  · by_cases ho : ops.openOk = false <;>
      by_cases h1 : ops.setConfiguration 1 < 0 <;>
        by_cases h2 : ops.claimInterface 0 < 0 <;>
          by_cases h3 : ops.claimInterface 1 ≠ 0 <;>
            simp [TemperCreate, ho, h1, h2, h3]
  · intro hdbg
    subst hdbg
    by_cases ho : ops.openOk = false <;>
      by_cases h1 : ops.setConfiguration 1 < 0 <;>
        by_cases h2 : ops.claimInterface 0 < 0 <;>
          by_cases h3 : ops.claimInterface 1 ≠ 0 <;>
            simp [TemperCreate, ho, h1, h2, h3, detachLog_false]
  · intro ho
    have ho2 : ¬ops.openOk = false := by simp [ho]
    refine ⟨?_, ?_, ?_⟩
    · by_cases h1 : ops.setConfiguration 1 < 0 <;>
        by_cases h2 : ops.claimInterface 0 < 0 <;>
          by_cases h3 : ops.claimInterface 1 ≠ 0 <;>
            simp [TemperCreate, ho2, h1, h2, h3]
    · intro h1
      by_cases h2 : ops.claimInterface 0 < 0 <;>
        by_cases h3 : ops.claimInterface 1 ≠ 0 <;>
          simp [TemperCreate, ho2, h1, h2, h3]
    · intro h1 h2
      by_cases h3 : ops.claimInterface 1 ≠ 0 <;>
        simp [TemperCreate, ho2, h1, h2, h3]

/-- Witness for C6: a run whose two detach attempts fail with a
non-ENODATA errno opens the same session as a run whose detach attempts
succeed. -/
theorem claim_C6_detach_tolerated_witness :
    ((TemperCreate ⟨okOps.openOk, detachFailOps.detach,
          okOps.setConfiguration, okOps.claimInterface⟩
          ⟨0x0c45, 0x7401, 1⟩ 1000 false
          ⟨0x0c45, 0x7401, "RDing TEMPer2V1.3"⟩).1 =
        (TemperCreate ⟨okOps.openOk, okOps.detach, okOps.setConfiguration,
          okOps.claimInterface⟩ ⟨0x0c45, 0x7401, 1⟩ 1000 false
          ⟨0x0c45, 0x7401, "RDing TEMPer2V1.3"⟩).1) ∧
      okOps.openOk = true ∧
      UsbEvent.setConfig 1 ∈
        (TemperCreate okOps ⟨0x0c45, 0x7401, 1⟩ 1000 false
          ⟨0x0c45, 0x7401, "RDing TEMPer2V1.3"⟩).2.1 :=
  ⟨(claim_C6_detach_tolerated okOps detachFailOps.detach okOps.detach
      ⟨0x0c45, 0x7401, 1⟩ 1000 false
      ⟨0x0c45, 0x7401, "RDing TEMPer2V1.3"⟩).1,
    rfl,
    ((claim_C6_detach_tolerated okOps detachFailOps.detach okOps.detach
      ⟨0x0c45, 0x7401, 1⟩ 1000 false
      ⟨0x0c45, 0x7401, "RDing TEMPer2V1.3"⟩).2.2.2 rfl).1⟩

/-- C8: every core operation returns the same result and the same data to
the caller whether or not debug is set: device matching and session open
return the same session payload (device, timeout, product) and make the
same USB calls, command sends build the same request and return the same
code, the interrupt read returns the same buffer and count, and the
decoder the same value — the debug flag reaches only the diagnostic
log. -/
theorem claim_C8_debug_noninterference (t : Temper)
    (world : Device → UsbHandleOps) (busses : List (List Device)) (n : Nat)
    (timeout : Int) (ops : UsbHandleOps) (dev : Device) (product : Product)
    (transport : ControlRequest → Int)
    (usbRead : Nat → Nat → Int → ReadOutcome) (buf : List Nat)
    (a b c d e f g h high low : Nat) :
    ((TemperCreateFromDeviceNumber world busses n timeout true).1.map
          Temper.obs =
        (TemperCreateFromDeviceNumber world busses n timeout false).1.map
          Temper.obs) ∧
      ((TemperCreateFromDeviceNumber world busses n timeout true).2.1 =
        (TemperCreateFromDeviceNumber world busses n timeout false).2.1) ∧
      ((TemperCreate ops dev timeout true product).1.map Temper.obs =
        (TemperCreate ops dev timeout false product).1.map Temper.obs) ∧
      ((TemperCreate ops dev timeout true product).2.1 =
        (TemperCreate ops dev timeout false product).2.1) ∧
      ((TemperSendCommand8 ⟨t.device, true, t.timeout, t.product⟩ transport
          a b c d e f g h).1 =
        (TemperSendCommand8 ⟨t.device, false, t.timeout, t.product⟩
          transport a b c d e f g h).1) ∧
      ((TemperSendCommand8 ⟨t.device, true, t.timeout, t.product⟩ transport
          a b c d e f g h).2.1 =
        (TemperSendCommand8 ⟨t.device, false, t.timeout, t.product⟩
          transport a b c d e f g h).2.1) ∧
      ((TemperSendCommand2 ⟨t.device, true, t.timeout, t.product⟩ transport
          a b).1 =
        (TemperSendCommand2 ⟨t.device, false, t.timeout, t.product⟩
          transport a b).1) ∧
      ((TemperSendCommand2 ⟨t.device, true, t.timeout, t.product⟩ transport
          a b).2.1 =
        (TemperSendCommand2 ⟨t.device, false, t.timeout, t.product⟩
          transport a b).2.1) ∧
      ((TemperInterruptRead ⟨t.device, true, t.timeout, t.product⟩ usbRead
          buf).1 =
        (TemperInterruptRead ⟨t.device, false, t.timeout, t.product⟩ usbRead
          buf).1) ∧
      ((TemperInterruptRead ⟨t.device, true, t.timeout, t.product⟩ usbRead
          buf).2.1 =
        (TemperInterruptRead ⟨t.device, false, t.timeout, t.product⟩ usbRead
          buf).2.1) ∧
      (TemperByteToCelcius ⟨t.device, true, t.timeout, t.product⟩ high low =
        TemperByteToCelcius ⟨t.device, false, t.timeout, t.product⟩ high
          low) := by
  refine ⟨?_, ?_, (TemperCreate_debug_irrel ops dev timeout product
    true false).1, (TemperCreate_debug_irrel ops dev timeout product
    true false).2, rfl, rfl, rfl, rfl, rfl, rfl, rfl⟩
  · rw [findNth_fst world busses n timeout true,
      findNth_fst world busses n timeout false]
    rcases hm : (allMatches busses)[n]? with _ | dp
    · rfl
    · exact (TemperCreate_debug_irrel (world dp.1) dp.1 timeout dp.2
        true false).1
  · rw [findNth_events world busses n timeout true,
      findNth_events world busses n timeout false]
    rcases hm : (allMatches busses)[n]? with _ | dp
    · rfl
    · exact (TemperCreate_debug_irrel (world dp.1) dp.1 timeout dp.2
        true false).2

/-- C10: when the selected Nth match exists but its session open fails,
the matcher returns the same no-session value as when fewer than N+1
matches exist, so the caller cannot tell the two failures apart; and the
whole result depends only on the USB behaviour of the selected match —
later matching devices are never tried as a fallback. -/
theorem claim_C10_open_failure_conflated
    (world world2 : Device → UsbHandleOps) (busses : List (List Device))
    (n : Nat) (timeout : Int) (debug : Bool) (dp : Device × Product) :
    ((allMatches busses)[n]? = some dp →
        (TemperCreate (world dp.1) dp.1 timeout debug dp.2).1 = none →
        (TemperCreateFromDeviceNumber world busses n timeout debug).1
          = none) ∧
      ((allMatches busses)[n]? = none →
        (TemperCreateFromDeviceNumber world busses n timeout debug).1
          = none) ∧
      ((∀ dp2, (allMatches busses)[n]? = some dp2 →
          world2 dp2.1 = world dp2.1) →
        (TemperCreateFromDeviceNumber world2 busses n timeout debug).1 =
            (TemperCreateFromDeviceNumber world busses n timeout debug).1 ∧
          (TemperCreateFromDeviceNumber world2 busses n timeout debug).2.1 =
            (TemperCreateFromDeviceNumber world busses n timeout
              debug).2.1) := by
  refine ⟨?_, ?_, ?_⟩
  · intro hm hfail
    rw [findNth_fst, hm]
    exact hfail
  · intro hm
    rw [findNth_fst, hm]
  · intro hagree
    constructor
    · rw [findNth_fst world busses n timeout debug,
        findNth_fst world2 busses n timeout debug]
      rcases hm : (allMatches busses)[n]? with _ | dp2
      · rfl
      · show (TemperCreate (world2 dp2.1) dp2.1 timeout debug dp2.2).1 =
          (TemperCreate (world dp2.1) dp2.1 timeout debug dp2.2).1
        rw [hagree dp2 hm]
    · rw [findNth_events world busses n timeout debug,
        findNth_events world2 busses n timeout debug]
      rcases hm : (allMatches busses)[n]? with _ | dp2
      · rfl
      · show (TemperCreate (world2 dp2.1) dp2.1 timeout debug dp2.2).2.1 =
          (TemperCreate (world dp2.1) dp2.1 timeout debug dp2.2).2.1
        rw [hagree dp2 hm]

/-- Witness for C10: on the sample enumeration, an open failure at match 0
yields the same none as requesting out-of-range match 3. -/
theorem claim_C10_open_failure_conflated_witness :
    (TemperCreateFromDeviceNumber (fun _ => claim1FailOps) sampleBusses 0
        1000 false).1 = none ∧
      (TemperCreateFromDeviceNumber (fun _ => claim1FailOps) sampleBusses 3
        1000 false).1 = none :=
  ⟨(claim_C10_open_failure_conflated (fun _ => claim1FailOps)
      (fun _ => claim1FailOps) sampleBusses 0 1000 false
      (⟨0x0c45, 0x7401, 1⟩, ⟨0x0c45, 0x7401, "RDing TEMPer2V1.3"⟩)).1
      (by decide) (by decide),
    (claim_C10_open_failure_conflated (fun _ => claim1FailOps)
      (fun _ => claim1FailOps) sampleBusses 3 1000 false
      (⟨0x0c45, 0x7401, 1⟩, ⟨0x0c45, 0x7401, "RDing TEMPer2V1.3"⟩)).2.1
      (by decide)⟩

end TemperComm
